import Mathlib

/-!
Verification of the resilience / resource-management core of the
connector-framework repository: circuit breaker, operation executor
(retry + per-key circuit records), sliding-window rate limiter,
TTL cache with memoization, and the connection pool.

Each definition is a shallow embedding of the corresponding TypeScript
source. Times (`Date.now()`) are naturals or integers passed in
explicitly; JS `undefined`/`null` values are modelled with `Option`;
JS `Map` objects are modelled as insertion-ordered association lists.
-/

/-! ## Association-list model of a JS `Map` keyed by strings -/

/-- Lookup in a JS `Map` (first matching key; keys are unique in practice). -/
def lookupEntry {β : Type} (m : List (String × β)) (k : String) : Option β :=
  match m with
  | [] => none
  | (k', v) :: rest => if k' = k then some v else lookupEntry rest k

/-- `Map.set`: replace the value at an existing key in place, else append. -/
def setEntry {β : Type} (m : List (String × β)) (k : String) (v : β) :
    List (String × β) :=
  match m with
  | [] => [(k, v)]
  | (k', v') :: rest =>
    if k' = k then (k, v) :: rest else (k', v') :: setEntry rest k v

/-- `Map.delete`: remove the entry at the key, if present. -/
def deleteEntry {β : Type} (m : List (String × β)) (k : String) :
    List (String × β) :=
  match m with
  | [] => []
  | (k', v') :: rest => if k' = k then rest else (k', v') :: deleteEntry rest k

/-! ## CircuitBreaker (src/error-handling/circuit-breaker.ts)

A single circuit instance with states CLOSED / OPEN / HALF_OPEN. -/

/-- `CircuitState` enum of circuit-breaker.ts (also reused by the
operation executor's inline breaker, whose enum is identical). -/
inductive CircuitState : Type where
  | CLOSED
  | OPEN
  | HALF_OPEN
  deriving DecidableEq

/-- `CircuitBreakerConfig` with all fields required (defaults merged in). -/
structure CircuitBreakerConfig where
  failureThreshold : Nat
  recoveryTimeout : Nat
  successThreshold : Nat
  deriving DecidableEq

/-- Defaults of circuit-breaker.ts: threshold 5, recovery 30000 ms, successes 3. -/
def defaultCircuitBreakerConfig : CircuitBreakerConfig :=
  { failureThreshold := 5, recoveryTimeout := 30000, successThreshold := 3 }

/-- Mutable fields of the `CircuitBreaker` class, plus its merged config. -/
structure CircuitBreaker where
  state : CircuitState
  failures : Nat
  successes : Nat
  lastStateChange : Nat
  config : CircuitBreakerConfig
  deriving DecidableEq

/-- `checkCircuitState` (circuit-breaker.ts lines 104-127). In the OPEN state
it either performs the OPEN → HALF_OPEN transition (resetting both counters)
when `now - lastStateChange >= recoveryTimeout`, or throws `Circuit is OPEN`.
The thrown error is modelled with `Except.error`. -/
def checkCircuitState (cb : CircuitBreaker) (now : Nat) :
    Except String CircuitBreaker :=
  match cb.state with
  | .CLOSED => .ok cb
  | .OPEN =>
    if cb.config.recoveryTimeout ≤ now - cb.lastStateChange then
      .ok { cb with state := .HALF_OPEN, successes := 0, failures := 0 }
    else
      .error "Circuit is OPEN"
  | .HALF_OPEN => .ok cb

/-- `recordSuccess` (circuit-breaker.ts lines 132-151). The OPEN case of the
source switch is absent, so a success recorded while OPEN changes nothing. -/
def recordSuccess (cb : CircuitBreaker) (now : Nat) : CircuitBreaker :=
  match cb.state with
  | .CLOSED => { cb with failures := 0 }
  | .HALF_OPEN =>
    if cb.config.successThreshold ≤ cb.successes + 1 then
      { cb with state := .CLOSED, successes := 0, failures := 0,
                lastStateChange := now }
    else
      { cb with successes := cb.successes + 1 }
  | .OPEN => cb

/-- `recordFailure` (circuit-breaker.ts lines 157-177). The OPEN case of the
source switch is absent, so a failure recorded while OPEN changes nothing. -/
def recordFailure (cb : CircuitBreaker) (now : Nat) : CircuitBreaker :=
  match cb.state with
  | .CLOSED =>
    if cb.config.failureThreshold ≤ cb.failures + 1 then
      { cb with failures := cb.failures + 1, state := .OPEN,
                lastStateChange := now }
    else
      { cb with failures := cb.failures + 1 }
  | .HALF_OPEN =>
    { cb with state := .OPEN, failures := 1, successes := 0,
              lastStateChange := now }
  | .OPEN => cb

/-- One recorded outcome: `true` is a success, `false` a failure, paired with
the `Date.now()` value observed while recording it. -/
def applyOutcome (cb : CircuitBreaker) (outcome : Bool) (now : Nat) :
    CircuitBreaker :=
  if outcome then recordSuccess cb now else recordFailure cb now

/-- A sequence of recorded outcomes applied in order. -/
def runOutcomes (cb : CircuitBreaker) (outs : List (Bool × Nat)) :
    CircuitBreaker :=
  outs.foldl (fun c o => applyOutcome c o.1 o.2) cb

/-! ## OperationExecutor (src/core/operation-executor.ts)

The dispatcher: per-key execution trackers, per-key inline circuit-breaker
records, input/output validation, and the retry loop. -/

/-- One per-key record of `OperationExecutor.circuitBreakers`. -/
structure OpCircuitBreaker where
  state : CircuitState
  failureCount : Nat
  lastFailureTime : Nat
  deriving DecidableEq

/-- `defaultCircuitBreakerConfig` of the executor (threshold 5, recovery
30000 ms); the executor always reads this field, it is never overridden. -/
def defaultOpCircuitBreakerConfig : CircuitBreakerConfig :=
  { failureThreshold := 5, recoveryTimeout := 30000, successThreshold := 3 }

/-- `OperationExecutionTracker`; `averageExecutionTime` is a JS number
computed by division, modelled exactly with `Rat`. -/
structure OperationExecutionTracker where
  totalExecutions : Nat
  successfulExecutions : Nat
  failedExecutions : Nat
  averageExecutionTime : Rat
  deriving DecidableEq

/-- The two per-key maps held by an `OperationExecutor` instance. -/
structure ExecutorState where
  executionTrackers : List (String × OperationExecutionTracker)
  circuitBreakers : List (String × OpCircuitBreaker)
  deriving DecidableEq

/-- `canExecuteOperation` (operation-executor.ts lines 298-317): a pure read
of the per-key record. In the OPEN state it returns whether
`Date.now() - lastFailureTime` STRICTLY exceeds `recoveryTimeout`; it
performs no state transition and no counter reset. -/
def canExecuteOperation (cb? : Option OpCircuitBreaker) (now : Nat) : Bool :=
  match cb? with
  | none => true
  | some cb =>
    match cb.state with
    | .CLOSED => true
    | .OPEN =>
      decide (defaultOpCircuitBreakerConfig.recoveryTimeout <
        now - cb.lastFailureTime)
    | .HALF_OPEN => true

/-- The admission check performed at the top of `executeOperation`
(operation-executor.ts lines 120-128): it calls `canExecuteOperation`,
which contains no assignment, so the `circuitBreakers` map after the
check is the map before it. -/
def checkAdmission (breakers : List (String × OpCircuitBreaker))
    (opId : String) (now : Nat) :
    Bool × List (String × OpCircuitBreaker) :=
  (canExecuteOperation (lookupEntry breakers opId) now, breakers)

/-- `recordCircuitBreakerFailure` (operation-executor.ts lines 323-339). -/
def recordCircuitBreakerFailure (st : ExecutorState) (opId : String)
    (now : Nat) : ExecutorState :=
  let cb0 := (lookupEntry st.circuitBreakers opId).getD
    { state := .CLOSED, failureCount := 0, lastFailureTime := 0 }
  let cb1 := { cb0 with failureCount := cb0.failureCount + 1,
                        lastFailureTime := now }
  let cb2 :=
    if defaultOpCircuitBreakerConfig.failureThreshold ≤ cb1.failureCount then
      { cb1 with state := .OPEN }
    else cb1
  { st with circuitBreakers := setEntry st.circuitBreakers opId cb2 }

/-- `resetCircuitBreaker` (operation-executor.ts lines 345-352): only mutates
an existing record (state to CLOSED, failureCount to 0). -/
def resetCircuitBreaker (st : ExecutorState) (opId : String) : ExecutorState :=
  match lookupEntry st.circuitBreakers opId with
  | none => st
  | some cb =>
    { st with
      circuitBreakers :=
        setEntry st.circuitBreakers opId
          { cb with state := .CLOSED, failureCount := 0 } }

/-- `updateExecutionTracker` (operation-executor.ts lines 419-446); the
rolling average divides by the new total. -/
def updateExecutionTracker (st : ExecutorState) (opId : String)
    (success : Bool) (startTime now : Nat) : ExecutorState :=
  let tr0 := (lookupEntry st.executionTrackers opId).getD
    { totalExecutions := 0, successfulExecutions := 0,
      failedExecutions := 0, averageExecutionTime := 0 }
  let executionTime : Rat := ((now - startTime : Nat) : Rat)
  let total := tr0.totalExecutions + 1
  let tr1 : OperationExecutionTracker :=
    { totalExecutions := total,
      successfulExecutions :=
        if success then tr0.successfulExecutions + 1
        else tr0.successfulExecutions,
      failedExecutions :=
        if success then tr0.failedExecutions else tr0.failedExecutions + 1,
      averageExecutionTime :=
        (tr0.averageExecutionTime * ((total : Rat) - 1) + executionTime) /
          (total : Rat) }
  { st with executionTrackers := setEntry st.executionTrackers opId tr1 }

/-- One settled call of the caller-supplied `operation.execute`: it either
rejects (throws) with a message, or resolves with a value that may be
JS `null`/`undefined` (modelled `Option.none`). -/
inductive RunOutcome (α : Type) : Type where
  | throws (msg : String)
  | returns (v : Option α)
  deriving DecidableEq

/-- The body of one iteration of the retry loop's `try` block
(operation-executor.ts lines 206-212): run the operation, then
`validateOutput`, which throws `Operation must return a valid output`
when the output is `undefined` or `null`. A thrown error of either
origin lands in the same `catch`. -/
def attemptOnce {α : Type} (run : Nat → RunOutcome α) (attempt : Nat) :
    Except String α :=
  match run attempt with
  | .throws msg => .error msg
  | .returns none => .error "Operation must return a valid output"
  | .returns (some v) => .ok v

/-- The retry loop of `executeWithRetry` (operation-executor.ts lines
196-249), with `remaining` iterations left, starting at index `attempt`.
The second component counts how many times `operation.execute` ran.
On exhaustion the loop rethrows the last error. -/
def executeWithRetryGo {α : Type} (run : Nat → RunOutcome α)
    (attempt : Nat) : Nat → Except String α × Nat
  | 0 => (.error "Unknown execution failure", 0)
  | remaining + 1 =>
    match attemptOnce run attempt with
    | .ok v => (.ok v, 1)
    | .error msg =>
      match remaining with
      | 0 => (.error msg, 1)
      | r + 1 =>
        let res := executeWithRetryGo run (attempt + 1) (r + 1)
        (res.1, res.2 + 1)

/-- `executeWithRetry`: attempts run from index 0 up to `maxRetries`,
i.e. `maxRetries + 1` loop iterations. -/
def executeWithRetry {α : Type} (run : Nat → RunOutcome α)
    (maxRetries : Nat) : Except String α × Nat :=
  executeWithRetryGo run 0 (maxRetries + 1)

/-- `OperationStatus` values used by the executor. -/
inductive OperationStatus : Type where
  | COMPLETED
  | FAILED
  deriving DecidableEq

/-- `OperationError` as constructed by `createErrorResult` (details holds
only the operationId there). -/
structure OperationError where
  code : String
  message : String
  detailsOperationId : String
  deriving DecidableEq

/-- The `metadata` block of an `OperationResult`. -/
structure OperationMetadata where
  startTime : Nat
  endTime : Nat
  duration : Nat
  deriving DecidableEq

/-- `OperationResult` (src/types/operation.ts lines 259-294); both result
constructors in the executor always fill `metadata`. -/
structure OperationResult (α : Type) where
  status : OperationStatus
  data : Option α
  error : Option OperationError
  metadata : OperationMetadata
  deriving DecidableEq

/-- `createErrorResult` (operation-executor.ts lines 388-411): the structured
failure. Its fields are the code, the message, the operationId, and the
start/end/duration times - nothing else. -/
def createErrorResult (α : Type) (opId code message : String)
    (startTime now : Nat) : OperationResult α :=
  { status := .FAILED,
    data := none,
    error := some { code := code, message := message,
                    detailsOperationId := opId },
    metadata := { startTime := startTime, endTime := now,
                  duration := now - startTime } }

/-- `executeOperation` (operation-executor.ts lines 105-175). `inputs` is
`none` when the JS value is falsy, which is exactly when `validateInputs`
throws `Inputs are required`. `startTime` is `Date.now()` at dispatch
start (also the clock of the admission check); `endTime` is `Date.now()`
when the result is assembled. The third component counts invocations of
the caller-supplied run. -/
def executeOperation {ι α : Type} (st : ExecutorState) (opId : String)
    (inputs : Option ι) (run : Nat → RunOutcome α) (retries : Nat)
    (startTime endTime : Nat) :
    OperationResult α × ExecutorState × Nat :=
  if canExecuteOperation (lookupEntry st.circuitBreakers opId) startTime
      = false then
    (createErrorResult α opId "CIRCUIT_OPEN"
      "Circuit is currently open. Operation cannot be executed."
      startTime endTime, st, 0)
  else
    match inputs with
    | none =>
      (createErrorResult α opId "INVALID_INPUT" "Inputs are required"
        startTime endTime, st, 0)
    | some _ =>
      match executeWithRetry run retries with
      | (.ok v, k) =>
        let st1 := updateExecutionTracker st opId true startTime endTime
        let st2 := resetCircuitBreaker st1 opId
        ({ status := .COMPLETED, data := some v, error := none,
           metadata := { startTime := startTime, endTime := endTime,
                         duration := endTime - startTime } }, st2, k)
      | (.error msg, k) =>
        let st1 := updateExecutionTracker st opId false startTime endTime
        let st2 := recordCircuitBreakerFailure st1 opId endTime
        (createErrorResult α opId "EXECUTION_FAILED" msg startTime endTime,
         st2, k)

/-! ## RateLimiter (src/security/rate-limiter.ts)

Per-identifier sliding-window admission. Entries of different identifiers
are independent values of the `limitEntries` map, so the embedding acts on
a single identifier's `RateLimitEntry`. Timestamps are integers. -/

/-- `RateLimitConfig` with the fields `isAllowed` reads (all required after
the constructor merges defaults). -/
structure RateLimitConfig where
  maxRequests : Nat
  windowMs : Int
  blockDuration : Int
  deriving DecidableEq

/-- Defaults of rate-limiter.ts: 100 requests per 60000 ms, 300000 ms block. -/
def defaultRateLimitConfig : RateLimitConfig :=
  { maxRequests := 100, windowMs := 60000, blockDuration := 300000 }

/-- `RateLimitEntry`: recorded admission timestamps plus the optional block. -/
structure RateLimitEntry where
  timestamps : List Int
  blockedUntil : Option Int
  deriving DecidableEq

/-- The entry `getOrCreateEntry` makes for an identifier not yet tracked. -/
def freshRateLimitEntry : RateLimitEntry :=
  { timestamps := [], blockedUntil := none }

/-- `RateLimitStrategy` enum. -/
inductive RateLimitStrategy : Type where
  | BLOCK
  | QUEUE
  | DROP
  deriving DecidableEq

/-- The source's `entry.blockedUntil && entry.blockedUntil > Date.now()`:
JS `&&` short-circuits on a falsy `blockedUntil`, i.e. absent or `0`. -/
def isBlockedNow (e : RateLimitEntry) (now : Int) : Bool :=
  match e.blockedUntil with
  | none => false
  | some b => b != 0 && decide (now < b)

/-- `pruneOldTimestamps` (rate-limiter.ts lines 212-217): keep timestamps
strictly newer than `now - windowMs`. -/
def pruneOldTimestamps (cfg : RateLimitConfig) (e : RateLimitEntry)
    (now : Int) : RateLimitEntry :=
  { e with timestamps :=
      e.timestamps.filter (fun t => decide (now - cfg.windowMs < t)) }

/-- `blockEntry` (rate-limiter.ts lines 223-226). -/
def blockEntry (cfg : RateLimitConfig) (e : RateLimitEntry)
    (now : Int) : RateLimitEntry :=
  { e with blockedUntil := some (now + cfg.blockDuration), timestamps := [] }

/-- `isAllowed` (rate-limiter.ts lines 109-151) acting on one identifier's
entry: blocked check first (without pruning), then prune, then the
inclusive-cap check, then per-strategy denial or admission. Returns the
boolean result and the updated entry. -/
def isAllowed (cfg : RateLimitConfig) (strategy : RateLimitStrategy)
    (e : RateLimitEntry) (now : Int) : Bool × RateLimitEntry :=
  if isBlockedNow e now then
    (false, e)
  else
    let e1 := pruneOldTimestamps cfg e now
    if cfg.maxRequests ≤ e1.timestamps.length then
      match strategy with
      | .BLOCK => (false, blockEntry cfg e1 now)
      | .DROP => (false, e1)
      | .QUEUE => (false, e1)
    else
      (true, { e1 with timestamps := e1.timestamps ++ [now] })

/-- `n` consecutive `isAllowed` calls for one identifier, all at clock
`now`, threading the entry; returns the list of results in order. -/
def repeatCalls (cfg : RateLimitConfig) (strategy : RateLimitStrategy)
    (e : RateLimitEntry) (now : Int) : Nat → List Bool × RateLimitEntry
  | 0 => ([], e)
  | n + 1 =>
    let r := isAllowed cfg strategy e now
    let rest := repeatCalls cfg strategy r.2 now n
    (r.1 :: rest.1, rest.2)

/-! ## CacheManager (src/performance/cache-manager.ts)

A TTL cache over a JS `Map`. A stored value may itself be JS `undefined`
(when a memoized function returns `undefined`), so entry values are
`Option α` with `none` for `undefined`. -/

/-- `CacheEntry`. -/
structure CacheEntry (α : Type) where
  value : Option α
  createdAt : Int
  expiresAt : Option Int
  deriving DecidableEq

/-- `CacheManagerConfig` after defaults are merged. -/
structure CacheManagerConfig where
  defaultTTL : Int
  maxEntries : Nat
  deriving DecidableEq

/-- Defaults of cache-manager.ts: 300000 ms TTL, 1000 entries. -/
def defaultCacheManagerConfig : CacheManagerConfig :=
  { defaultTTL := 300000, maxEntries := 1000 }

/-- A `CacheManager` instance: its map and merged config. -/
structure CacheManager (α : Type) where
  cache : List (String × CacheEntry α)
  config : CacheManagerConfig
  deriving DecidableEq

/-- A freshly constructed `CacheManager` with the default config. -/
def emptyCache (α : Type) : CacheManager α :=
  { cache := [], config := defaultCacheManagerConfig }

/-- `isValidEntry` (cache-manager.ts lines 146-149): the source reads
`!entry.expiresAt || entry.expiresAt > Date.now()`, so an absent OR
zero (falsy) `expiresAt` makes the entry valid forever. -/
def isValidEntry {α : Type} (e : CacheEntry α) (now : Int) : Bool :=
  match e.expiresAt with
  | none => true
  | some exp => exp == 0 || decide (now < exp)

/-- `findOldestEntryKey` (cache-manager.ts lines 169-182): first key with
the strictly smallest `createdAt`; the accumulator starts as `none`,
playing the role of `oldestTimestamp = Infinity`. -/
def findOldestGo {α : Type} (l : List (String × CacheEntry α))
    (best : Option (String × Int)) : Option String :=
  match l with
  | [] => best.map (fun b => b.1)
  | (k, e) :: rest =>
    match best with
    | none => findOldestGo rest (some (k, e.createdAt))
    | some (bk, bt) =>
      if e.createdAt < bt then findOldestGo rest (some (k, e.createdAt))
      else findOldestGo rest (some (bk, bt))

/-- `findOldestEntryKey` entry point. -/
def findOldestEntryKey {α : Type} (m : List (String × CacheEntry α)) :
    Option String :=
  findOldestGo m none

/-- The `while (size >= maxEntries)` eviction loop of `enforceMaxEntries`
(cache-manager.ts lines 154-163), with fuel `m.length`: each pass removes
the oldest entry. (With `maxEntries = 0` and an empty map the JS loop
never terminates; the fuel makes the embedding stop there instead.) -/
def enforceMaxEntriesGo {α : Type} (maxEntries : Nat)
    (m : List (String × CacheEntry α)) : Nat → List (String × CacheEntry α)
  | 0 => m
  | fuel + 1 =>
    if maxEntries ≤ m.length then
      match findOldestEntryKey m with
      | some k => enforceMaxEntriesGo maxEntries (deleteEntry m k) fuel
      | none => m
    else m

/-- `enforceMaxEntries`. -/
def enforceMaxEntries {α : Type} (c : CacheManager α) : CacheManager α :=
  { c with cache :=
      enforceMaxEntriesGo c.config.maxEntries c.cache c.cache.length }

/-- `CacheManager.set` (cache-manager.ts lines 71-85): evict first, then
store with `expiresAt: ttl ? now + ttl : now + defaultTTL`; a `ttl`
argument that is absent or `0` (falsy) selects the default TTL. -/
def CacheManager.set {α : Type} (c : CacheManager α) (key : String)
    (value : Option α) (ttl : Option Int) (now : Int) : CacheManager α :=
  let c1 := enforceMaxEntries c
  let entry : CacheEntry α :=
    { value := value,
      createdAt := now,
      expiresAt := some (match ttl with
        | some t => if t = 0 then now + c.config.defaultTTL else now + t
        | none => now + c.config.defaultTTL) }
  { c1 with cache := setEntry c1.cache key entry }

/-- `CacheManager.get` (cache-manager.ts lines 92-106): return the stored
value of a valid entry; delete an expired entry on read; `none` is both
a miss and a stored `undefined`. -/
def CacheManager.get {α : Type} (c : CacheManager α) (key : String)
    (now : Int) : Option α × CacheManager α :=
  match lookupEntry c.cache key with
  | none => (none, c)
  | some e =>
    if isValidEntry e now then (e.value, c)
    else (none, { c with cache := deleteEntry c.cache key })

/-- The per-entry test of `cleanup` (cache-manager.ts lines 188-197):
`entry.expiresAt && entry.expiresAt <= now`, with JS truthiness on
`expiresAt`. -/
def expiredForCleanup {α : Type} (e : CacheEntry α) (now : Int) : Bool :=
  match e.expiresAt with
  | none => false
  | some exp => exp != 0 && decide (exp ≤ now)

/-- `CacheManager.cleanup`: purge every expired entry. -/
def CacheManager.cleanup {α : Type} (c : CacheManager α) (now : Int) :
    CacheManager α :=
  { c with cache := c.cache.filter (fun p => !expiredForCleanup p.2 now) }

/-- One call of a function memoized by `CacheManager.memoize`
(cache-manager.ts lines 205-227): compute the key (`resolver` or
JSON-serialization, abstracted as `keyOf`), consult the cache, and on
`cachedResult !== undefined` return it; otherwise invoke `fn`, store its
result with no explicit ttl, and return it. The third component counts
invocations of the underlying `fn`. -/
def memoizedCall {ι α : Type} (c : CacheManager α) (fn : ι → Option α)
    (keyOf : ι → String) (x : ι) (now : Int) :
    Option α × CacheManager α × Nat :=
  let key := keyOf x
  let r := CacheManager.get c key now
  match r.1 with
  | some v => (some v, r.2, 0)
  | none =>
    let result := fn x
    (result, CacheManager.set r.2 key result none now, 1)

/-! ## ConnectionPool (src/performance/connection-pool.ts)

The pool's three collections. A connection is its id plus the boolean its
`isValid()` resolves with at release time. -/

/-- A poolable connection. -/
structure PoolConn where
  id : Nat
  valid : Bool
  deriving DecidableEq

/-- `ConnectionPoolConfig` after defaults are merged. -/
structure ConnectionPoolConfig where
  minConnections : Nat
  maxConnections : Nat
  idleTimeout : Nat
  acquireTimeout : Nat
  deriving DecidableEq

/-- Defaults of connection-pool.ts: min 5, max 20, idle 30000, acquire 5000. -/
def defaultPoolConfig : ConnectionPoolConfig :=
  { minConnections := 5, maxConnections := 20,
    idleTimeout := 30000, acquireTimeout := 5000 }

/-- The pool's instance fields: idle connections, checked-out connections,
and the FIFO queue of pending acquire resolvers (identified by number). -/
structure PoolState where
  availableConnections : List PoolConn
  activeConnections : List PoolConn
  pendingRequests : List Nat
  deriving DecidableEq

/-- The pool before any connection exists. -/
def emptyPoolState : PoolState :=
  { availableConnections := [], activeConnections := [],
    pendingRequests := [] }

/-- `getStats` (connection-pool.ts lines 201-207):
(available, active, total). -/
def getStats (st : PoolState) : Nat × Nat × Nat :=
  (st.availableConnections.length, st.activeConnections.length,
   st.availableConnections.length + st.activeConnections.length)

/-- `|availableConnections| + |activeConnections|`, the count the claimed
invariant bounds by `maxConnections`. -/
def totalConnections (st : PoolState) : Nat :=
  st.availableConnections.length + st.activeConnections.length

/-- `getAvailableConnection` (connection-pool.ts lines 213-222): shift the
oldest idle connection and push it onto the active list. -/
def getAvailableConnection (st : PoolState) : Option PoolConn × PoolState :=
  match st.availableConnections with
  | [] => (none, st)
  | c :: rest =>
    (some c,
     { st with availableConnections := rest,
               activeConnections := st.activeConnections ++ [c] })

/-- `canCreateNewConnection` (connection-pool.ts lines 228-231). -/
def canCreateNewConnection (cfg : ConnectionPoolConfig)
    (st : PoolState) : Bool :=
  decide (st.activeConnections.length + st.availableConnections.length <
    cfg.maxConnections)

/-- The tail of `createNewConnection` (connection-pool.ts lines 237-248)
after `await this.connectionFactory()` resolves with `conn`: push the new
connection onto the active list. -/
def finishCreateConnection (st : PoolState) (conn : PoolConn) : PoolState :=
  { st with activeConnections := st.activeConnections ++ [conn] }

/-- `Array.prototype.indexOf` + `splice(i, 1)`: remove the first occurrence
of `c`, or nothing when absent. -/
def removeFirst (l : List PoolConn) (c : PoolConn) : List PoolConn :=
  match l with
  | [] => []
  | x :: rest => if x = c then rest else x :: removeFirst rest c

/-- `release` (connection-pool.ts lines 142-171): remove from active; if
`isValid()` resolves true, PUSH the connection onto the available list AND
call `resolvePendingRequest(connection)`, which shifts the oldest waiter
(if any) and hands it this same connection; an invalid connection is
closed and discarded. The second component reports which waiter (if any)
was resolved, and with which connection. -/
def release (st : PoolState) (conn : PoolConn) :
    PoolState × Option (Nat × PoolConn) :=
  let st1 := { st with activeConnections :=
                 removeFirst st.activeConnections conn }
  if conn.valid then
    let st2 := { st1 with availableConnections :=
                   st1.availableConnections ++ [conn] }
    match st2.pendingRequests with
    | [] => (st2, none)
    | w :: ws => ({ st2 with pendingRequests := ws }, some (w, conn))
  else
    (st1, none)

/-- `initializeMinConnections` (connection-pool.ts lines 287-294): the
constructor issues `minConnections` calls of `createNewConnection`; when
every factory promise has resolved, each resulting connection (listed in
`newConns`) has been pushed onto the ACTIVE list. -/
def initializeMinConnections (st : PoolState)
    (newConns : List PoolConn) : PoolState :=
  newConns.foldl finishCreateConnection st

/-- The `while (available.length > minConnections) pop-and-close` loop of
`cleanupIdleConnections` (connection-pool.ts lines 308-318). -/
def cleanupAvailable (minC : Nat) (l : List PoolConn) : List PoolConn :=
  if _h : minC < l.length then cleanupAvailable minC l.dropLast else l
termination_by l.length
decreasing_by
  simp only [List.length_dropLast]
  omega

/-- `cleanupIdleConnections`. -/
def cleanupIdleConnections (cfg : ConnectionPoolConfig)
    (st : PoolState) : PoolState :=
  { st with availableConnections :=
      cleanupAvailable cfg.minConnections st.availableConnections }

/-! ### Cooperative interleaving of pool operations

`acquire` (connection-pool.ts lines 122-136) awaits the connection factory
inside `createNewConnection`, so it is split at that suspension point:
the part before the await (take an idle connection, or check capacity, or
enqueue a waiter) and the part after it (push the created connection).
Other operations may run between the two parts. -/

/-- Scheduler events over the pool. -/
inductive PoolEvent : Type where
  | acquireStart (waiterId : Nat)
  | factoryResolved (conn : PoolConn)
  | releaseConn (conn : PoolConn)
  | idleCleanup
  deriving DecidableEq

/-- The pool plus the number of acquire calls currently suspended at
`await this.connectionFactory()`. -/
structure AsyncPoolState where
  pool : PoolState
  pendingCreates : Nat
  deriving DecidableEq

/-- One atomic step. `acquireStart` performs acquire's synchronous prefix:
it takes an idle connection if one exists; otherwise, if
`canCreateNewConnection()` holds, the call suspends awaiting the factory
(the pool lists are untouched until the await resolves); otherwise the
caller is enqueued as a waiter. `factoryResolved` is one suspended
creation resuming: the connection is pushed onto the active list. -/
def poolStep (cfg : ConnectionPoolConfig) (s : AsyncPoolState)
    (ev : PoolEvent) : AsyncPoolState :=
  match ev with
  | .acquireStart wid =>
    match getAvailableConnection s.pool with
    | (some _, st') => { s with pool := st' }
    | (none, _) =>
      if canCreateNewConnection cfg s.pool then
        { s with pendingCreates := s.pendingCreates + 1 }
      else
        { s with pool :=
            { s.pool with pendingRequests :=
                s.pool.pendingRequests ++ [wid] } }
  | .factoryResolved conn =>
    match s.pendingCreates with
    | 0 => s
    | k + 1 =>
      { pool := finishCreateConnection s.pool conn, pendingCreates := k }
  | .releaseConn conn => { s with pool := (release s.pool conn).1 }
  | .idleCleanup => { s with pool := cleanupIdleConnections cfg s.pool }

/-- Run a list of events in order. -/
def runPoolEvents (cfg : ConnectionPoolConfig) (s : AsyncPoolState)
    (evs : List PoolEvent) : AsyncPoolState :=
  evs.foldl (poolStep cfg) s

/-! ## The claim's wording of the stored expiry (for comparison with `set`) -/

/-- The expiry C10 assigns to a stored entry: the default TTL when `ttl`
is omitted or `0`, otherwise `now + ttl`. Compared against the embedded
`CacheManager.set`. -/
def claimedExpiresAt (cfg : CacheManagerConfig) (ttl : Option Int)
    (now : Int) : Int :=
  match ttl with
  | none => now + cfg.defaultTTL
  | some t => if t = 0 then now + cfg.defaultTTL else now + t

/-! ## Concrete instances used in witnesses and counterexamples -/

/-- Pool configured with `maxConnections = 1` and `minConnections = 0`. -/
def poolCfgMax1 : ConnectionPoolConfig :=
  { minConnections := 0, maxConnections := 1,
    idleTimeout := 30000, acquireTimeout := 5000 }

/-- Two overlapping acquire calls on an empty pool: both run acquire's
synchronous prefix (and pass `canCreateNewConnection`) before either
factory promise resolves. -/
def overlappingAcquires : List PoolEvent :=
  [.acquireStart 0, .acquireStart 1,
   .factoryResolved { id := 1, valid := true },
   .factoryResolved { id := 2, valid := true }]

/-- A connection whose `isValid()` resolves `true`. -/
def connSeven : PoolConn := { id := 7, valid := true }

/-- A pool holding only `connSeven` (checked out) with one pending waiter. -/
def poolOneActiveOneWaiter : PoolState :=
  { availableConnections := [], activeConnections := [connSeven],
    pendingRequests := [4] }

/-- An OPEN per-key circuit record of the executor: 5 failures, the last
one at time 0. -/
def openOpRecord : OpCircuitBreaker :=
  { state := .OPEN, failureCount := 5, lastFailureTime := 0 }

/-- An executor `circuitBreakers` map holding `openOpRecord` at `"op"`. -/
def breakersWithOpenRecord : List (String × OpCircuitBreaker) :=
  [("op", openOpRecord)]

/-- A fresh default-configured `CircuitBreaker` (as after `reset()` at 0). -/
def cbFreshDefault : CircuitBreaker :=
  { state := .CLOSED, failures := 0, successes := 0, lastStateChange := 0,
    config := defaultCircuitBreakerConfig }

/-- A default-configured `CircuitBreaker` that opened at time 0. -/
def cbOpenAtZero : CircuitBreaker :=
  { state := .OPEN, failures := 5, successes := 0, lastStateChange := 0,
    config := defaultCircuitBreakerConfig }

/-- Four failures recorded at times 1..4. -/
def fourFailures : List (Bool × Nat) :=
  [(false, 1), (false, 2), (false, 3), (false, 4)]

/-- Limiter config with `maxRequests = 2` over a 1000 ms window. -/
def rlCfgTwo : RateLimitConfig :=
  { maxRequests := 2, windowMs := 1000, blockDuration := 300000 }

/-- A run whose output is `null`/`undefined` on every attempt, so every
attempt fails output validation. -/
def alwaysNullRun : Nat → RunOutcome Nat := fun _ => .returns none

/-- A run that throws `boom` on every attempt. -/
def alwaysThrowsRun : Nat → RunOutcome Nat := fun _ => .throws "boom"

/-- An executor before any operation ran. -/
def emptyExecutorState : ExecutorState :=
  { executionTrackers := [], circuitBreakers := [] }

/-- The tracker `updateExecutionTracker` starts from when a key is new. -/
def emptyTracker : OperationExecutionTracker :=
  { totalExecutions := 0, successfulExecutions := 0,
    failedExecutions := 0, averageExecutionTime := 0 }

/-- The record `recordCircuitBreakerFailure` starts from when a key is new. -/
def emptyOpBreaker : OpCircuitBreaker :=
  { state := .CLOSED, failureCount := 0, lastFailureTime := 0 }

/-- A memoized function returning JS `undefined` for every argument. -/
def fnUndefined : Unit → Option Unit := fun _ => none

/-- The key the memoized wrapper computes for the unit argument (standing
for `JSON.stringify(args)`). -/
def unitKey : Unit → String := fun _ => "[null]"

/-! ## Helper lemmas -/

theorem lookupEntry_setEntry_self {β : Type} (m : List (String × β))
    (k : String) (v : β) : lookupEntry (setEntry m k v) k = some v := by
  induction m with
  | nil => simp [setEntry, lookupEntry]
  | cons p rest ih =>
    obtain ⟨k', v'⟩ := p
    by_cases h : k' = k
    · simp [setEntry, lookupEntry, h]
    · simp [setEntry, lookupEntry, h, ih]

theorem recordFailure_closed_state (c : CircuitBreaker) (now : Nat)
    (h : c.state = CircuitState.CLOSED) :
    ((recordFailure c now).state = CircuitState.OPEN ↔
      c.config.failureThreshold ≤ c.failures + 1) ∧
    (recordFailure c now).failures = c.failures + 1 := by
  obtain ⟨st, f, s, l, cfg⟩ := c
  simp only at h
  subst h
  by_cases hc : cfg.failureThreshold ≤ f + 1
  · simp [recordFailure, hc]
  · simp [recordFailure, hc]

theorem recordSuccess_closed_state (c : CircuitBreaker) (now : Nat)
    (h : c.state = CircuitState.CLOSED) :
    recordSuccess c now = { c with failures := 0 } := by
  obtain ⟨st, f, s, l, cfg⟩ := c
  simp only at h
  subst h
  simp [recordSuccess]

theorem applyOutcome_inv (cfg : CircuitBreakerConfig)
    (hth : 0 < cfg.failureThreshold) (c : CircuitBreaker) (b : Bool)
    (now : Nat) (hcfg : c.config = cfg)
    (hinv : c.state = CircuitState.CLOSED →
      c.failures < cfg.failureThreshold) :
    (applyOutcome c b now).config = cfg ∧
    ((applyOutcome c b now).state = CircuitState.CLOSED →
      (applyOutcome c b now).failures < cfg.failureThreshold) := by
  obtain ⟨st, f, s, l, cfg'⟩ := c
  simp only at hcfg hinv
  subst hcfg
  cases b
  case false =>
    cases st
    case CLOSED =>
      have hf : f < cfg'.failureThreshold := hinv rfl
      have he : applyOutcome ⟨CircuitState.CLOSED, f, s, l, cfg'⟩ false now =
          if cfg'.failureThreshold ≤ f + 1 then
            ⟨CircuitState.OPEN, f + 1, s, now, cfg'⟩
          else ⟨CircuitState.CLOSED, f + 1, s, l, cfg'⟩ := rfl
      rw [he]
      by_cases hc : cfg'.failureThreshold ≤ f + 1
      · rw [if_pos hc]
        exact ⟨rfl, fun hstate => by simp at hstate⟩
      · rw [if_neg hc]
        refine ⟨rfl, fun _ => ?_⟩
        show f + 1 < cfg'.failureThreshold
        omega
    case OPEN => exact ⟨rfl, fun hstate => by simp [applyOutcome, recordFailure] at hstate⟩
    case HALF_OPEN => exact ⟨rfl, fun hstate => by simp [applyOutcome, recordFailure] at hstate⟩
  case true =>
    cases st
    case CLOSED => exact ⟨rfl, fun _ => hth⟩
    case OPEN => exact ⟨rfl, fun hstate => by simp [applyOutcome, recordSuccess] at hstate⟩
    case HALF_OPEN =>
      have he : applyOutcome ⟨CircuitState.HALF_OPEN, f, s, l, cfg'⟩ true now =
          if cfg'.successThreshold ≤ s + 1 then
            ⟨CircuitState.CLOSED, 0, 0, now, cfg'⟩
          else ⟨CircuitState.HALF_OPEN, f, s + 1, l, cfg'⟩ := rfl
      rw [he]
      by_cases hc : cfg'.successThreshold ≤ s + 1
      · rw [if_pos hc]
        exact ⟨rfl, fun _ => hth⟩
      · rw [if_neg hc]
        exact ⟨rfl, fun hstate => by simp at hstate⟩

theorem runOutcomes_inv (cfg : CircuitBreakerConfig)
    (hth : 0 < cfg.failureThreshold) (outs : List (Bool × Nat)) :
    ∀ c : CircuitBreaker, c.config = cfg →
      (c.state = CircuitState.CLOSED →
        c.failures < cfg.failureThreshold) →
      (runOutcomes c outs).config = cfg ∧
      ((runOutcomes c outs).state = CircuitState.CLOSED →
        (runOutcomes c outs).failures < cfg.failureThreshold) := by
  induction outs with
  | nil => intro c h1 h2; exact ⟨h1, h2⟩
  | cons o rest ih =>
    intro c h1 h2
    have step := applyOutcome_inv cfg hth c o.1 o.2 h1 h2
    have tail := ih (applyOutcome c o.1 o.2) step.1 step.2
    simpa [runOutcomes] using tail

/-! ## Claim C5 -/

/-- Claim C5: for every sequence of recorded outcomes applied to a circuit
starting CLOSED (with `failures = 0` and a positive `failureThreshold`),
whenever the circuit is still CLOSED the next recorded failure moves it to
OPEN exactly when the consecutive-failure count reaches `failureThreshold`,
and a success recorded while CLOSED resets the failure counter to 0 with no
state transition (state stays CLOSED, `lastStateChange` untouched). -/
theorem C5_closed_open_iff_threshold (cb : CircuitBreaker)
    (outs : List (Bool × Nat)) (now : Nat)
    (_hst : cb.state = CircuitState.CLOSED) (hf : cb.failures = 0)
    (hth : 0 < cb.config.failureThreshold)
    (hcl : (runOutcomes cb outs).state = CircuitState.CLOSED) :
    ((recordFailure (runOutcomes cb outs) now).state = CircuitState.OPEN ↔
      (runOutcomes cb outs).failures + 1 = cb.config.failureThreshold) ∧
    (recordSuccess (runOutcomes cb outs) now).state =
      CircuitState.CLOSED ∧
    (recordSuccess (runOutcomes cb outs) now).failures = 0 ∧
    (recordSuccess (runOutcomes cb outs) now).lastStateChange =
      (runOutcomes cb outs).lastStateChange := by
  have inv := runOutcomes_inv cb.config hth outs cb rfl
    (fun _ => by rw [hf]; exact hth)
  have hb : (runOutcomes cb outs).failures < cb.config.failureThreshold :=
    inv.2 hcl
  have hfcfg : (runOutcomes cb outs).config = cb.config := inv.1
  have hfail := recordFailure_closed_state (runOutcomes cb outs) now hcl
  have hsucc := recordSuccess_closed_state (runOutcomes cb outs) now hcl
  refine ⟨?_, ?_, ?_, ?_⟩
  · rw [hfail.1, hfcfg]
    omega
  · rw [hsucc]; exact hcl
  · rw [hsucc]
  · rw [hsucc]

/-- Witness for C5 at a fresh default circuit after four recorded
failures: still CLOSED, and the fifth failure opens it (4 + 1 = 5). -/
theorem C5_closed_open_iff_threshold_witness :
    ((recordFailure (runOutcomes cbFreshDefault fourFailures) 9).state =
        CircuitState.OPEN ↔
      (runOutcomes cbFreshDefault fourFailures).failures + 1 =
        cbFreshDefault.config.failureThreshold) ∧
    (recordSuccess (runOutcomes cbFreshDefault fourFailures) 9).state =
      CircuitState.CLOSED ∧
    (recordSuccess (runOutcomes cbFreshDefault fourFailures) 9).failures
      = 0 ∧
    (recordSuccess (runOutcomes cbFreshDefault fourFailures) 9
      ).lastStateChange =
      (runOutcomes cbFreshDefault fourFailures).lastStateChange :=
  C5_closed_open_iff_threshold cbFreshDefault fourFailures 9
    rfl rfl (by decide) (by decide)

/-! ## Claim C4 -/

/-- Counterexample to C4: the dispatcher's per-key circuits live in
`OperationExecutor.circuitBreakers`, and their admission check performs NO
transition. At `now = 30000` with `lastFailureTime = 0` we have
`now - lastTransition ≥ recoveryTimeout = 30000`, yet after the check the
record at key `op` is unchanged: still OPEN with `failureCount = 5` (no
HALF_OPEN, no counter reset) - and admission is even denied, because the
executor compares with a strict `>`. -/
theorem C4_perkey_check_no_transition :
    defaultOpCircuitBreakerConfig.recoveryTimeout ≤
      30000 - openOpRecord.lastFailureTime ∧
    (checkAdmission breakersWithOpenRecord "op" 30000).2 =
      breakersWithOpenRecord ∧
    lookupEntry (checkAdmission breakersWithOpenRecord "op" 30000).2 "op"
      = some openOpRecord ∧
    openOpRecord.state = CircuitState.OPEN ∧
    openOpRecord.failureCount = 5 ∧
    (checkAdmission breakersWithOpenRecord "op" 30000).1 = false := by
  decide

/-- Claim C4 as amended: the standalone `CircuitBreaker` class does perform
OPEN → HALF_OPEN with both counters reset as a side effect of a check once
`now - lastStateChange ≥ recoveryTimeout`; but the dispatcher's per-key
circuits are never transitioned by their admission check, which leaves the
`circuitBreakers` map exactly as it was. -/
theorem C4_class_transitions_perkey_does_not (cb : CircuitBreaker)
    (now : Nat) (breakers : List (String × OpCircuitBreaker))
    (opId : String) (h1 : cb.state = CircuitState.OPEN)
    (h2 : cb.config.recoveryTimeout ≤ now - cb.lastStateChange) :
    checkCircuitState cb now =
      Except.ok { cb with state := CircuitState.HALF_OPEN,
                          successes := 0, failures := 0 } ∧
    (checkAdmission breakers opId now).2 = breakers := by
  obtain ⟨st, f, s, l, cfg⟩ := cb
  simp only at h1 h2
  subst h1
  exact ⟨by simp [checkCircuitState, h2], rfl⟩

/-- Witness for the amended C4 at `cbOpenAtZero` and time 30000. -/
theorem C4_class_transitions_perkey_does_not_witness :
    checkCircuitState cbOpenAtZero 30000 =
      Except.ok { cbOpenAtZero with state := CircuitState.HALF_OPEN,
                                    successes := 0, failures := 0 } ∧
    (checkAdmission breakersWithOpenRecord "op" 30000).2 =
      breakersWithOpenRecord :=
  C4_class_transitions_perkey_does_not cbOpenAtZero 30000
    breakersWithOpenRecord "op" rfl (by decide)

/-! ## Claims C3 and C8: the retry loop and the failure result -/

theorem executeWithRetryGo_all_error {α : Type} (run : Nat → RunOutcome α)
    (msg : String)
    (hfail : ∀ i, attemptOnce run i = Except.error msg) :
    ∀ n a, executeWithRetryGo run a (n + 1) = (Except.error msg, n + 1) := by
  intro n
  induction n with
  | zero => intro a; simp [executeWithRetryGo, hfail a]
  | succ m ih => intro a; simp [executeWithRetryGo, hfail a, ih (a + 1)]

theorem executeWithRetryGo_count_pos {α : Type} (run : Nat → RunOutcome α) :
    ∀ n a, 1 ≤ (executeWithRetryGo run a (n + 1)).2 := by
  intro n
  induction n with
  | zero =>
    intro a
    rw [executeWithRetryGo]
    cases h : attemptOnce run a <;> simp
  | succ m ih =>
    intro a
    rw [executeWithRetryGo]
    cases h : attemptOnce run a <;> simp

theorem executeWithRetryGo_retries_after_failure {α : Type}
    (run : Nat → RunOutcome α) (msg : String) (r : Nat)
    (hfirst : attemptOnce run 0 = Except.error msg) :
    2 ≤ (executeWithRetryGo run 0 (r + 2)).2 := by
  rw [executeWithRetryGo, hfirst]
  have hpos := executeWithRetryGo_count_pos run r 1
  simp
  omega

/-- Counterexample to C3: with `retries = 1` and a run whose output is
`null`/`undefined` on every attempt (so every attempt fails OUTPUT
validation, never input validation and never a thrown run error), the
dispatch invokes run TWICE - the output-validation failure raised inside
the retry loop's `try` block is caught and retried - and ends as an
EXECUTION_FAILED result carrying the validation message, not as a
validation failure raised before any further attempt. -/
theorem C3_output_validation_retried :
    (executeOperation (ι := Unit) emptyExecutorState "op" (some ())
      alwaysNullRun 1 0 10).2.2 = 2 ∧
    (executeOperation (ι := Unit) emptyExecutorState "op" (some ())
      alwaysNullRun 1 0 10).1.error =
      some { code := "EXECUTION_FAILED",
             message := "Operation must return a valid output",
             detailsOperationId := "op" } := by
  decide

/-- Claim C3 as amended: only INPUT-validation failures are terminal - a
dispatch with invalid inputs returns INVALID_INPUT, leaves the executor
state untouched and never invokes run; an output-validation failure is
caught by the retry loop exactly like an exception thrown by run, and
whenever `retries ≥ 1` a failed first attempt (of either origin) is
followed by at least one further attempt of run. -/
theorem C3_input_terminal_output_retried {ι α : Type}
    (st : ExecutorState) (opId : String) (run : Nat → RunOutcome α)
    (retries startTime endTime : Nat) (msg : String)
    (hallow : canExecuteOperation (lookupEntry st.circuitBreakers opId)
      startTime = true)
    (hret : 1 ≤ retries)
    (hfirst : attemptOnce run 0 = Except.error msg) :
    executeOperation st opId (none : Option ι) run retries startTime
        endTime =
      (createErrorResult α opId "INVALID_INPUT" "Inputs are required"
        startTime endTime, st, 0) ∧
    2 ≤ (executeWithRetry run retries).2 := by
  constructor
  · simp [executeOperation, hallow]
  · obtain ⟨r, rfl⟩ : ∃ r, retries = r + 1 :=
      ⟨retries - 1, by omega⟩
    exact executeWithRetryGo_retries_after_failure run msg r hfirst

/-- Witness for the amended C3: invalid inputs return INVALID_INPUT with
zero run invocations, while a failing first attempt with `retries = 1`
leads to a second invocation. -/
theorem C3_input_terminal_output_retried_witness :
    executeOperation emptyExecutorState "op" (none : Option Unit)
        alwaysNullRun 1 0 10 =
      (createErrorResult Nat "op" "INVALID_INPUT" "Inputs are required"
        0 10, emptyExecutorState, 0) ∧
    2 ≤ (executeWithRetry alwaysNullRun 1).2 :=
  C3_input_terminal_output_retried emptyExecutorState "op" alwaysNullRun
    1 0 10 "Operation must return a valid output" rfl (by decide) rfl

/-- Counterexample to C8: two dispatches that differ ONLY in the retry
budget (1 vs 2), with a run that throws on every attempt, make 2 and 3
attempts respectively yet return EQUAL failure results - so the returned
structured failure cannot carry the number of attempts made. -/
theorem C8_failure_result_no_attempts :
    (executeOperation (ι := Unit) emptyExecutorState "op" (some ())
      alwaysThrowsRun 1 0 50).1 =
    (executeOperation (ι := Unit) emptyExecutorState "op" (some ())
      alwaysThrowsRun 2 0 50).1 ∧
    (executeOperation (ι := Unit) emptyExecutorState "op" (some ())
      alwaysThrowsRun 1 0 50).2.2 = 2 ∧
    (executeOperation (ι := Unit) emptyExecutorState "op" (some ())
      alwaysThrowsRun 2 0 50).2.2 = 3 := by
  decide

theorem executeWithRetry_all_error {α : Type} (run : Nat → RunOutcome α)
    (msg : String) (retries : Nat)
    (hfail : ∀ i, attemptOnce run i = Except.error msg) :
    executeWithRetry run retries = (Except.error msg, retries + 1) :=
  executeWithRetryGo_all_error run msg hfail retries 0

/-- Claim C8 as amended: when every attempt of run fails, the dispatch
makes all `retries + 1` attempts, records the failure (the per-key failed
execution count and the per-key circuit failure count both increment) and
returns the structured FAILED result built by `createErrorResult` - code
EXECUTION_FAILED, the last error message, and the elapsed time
(startTime, endTime, duration) - but NOT the number of attempts made: the
returned result is the same term for every retry budget. -/
theorem C8_exhausted_failure_recorded {ι α : Type} (st : ExecutorState)
    (opId : String) (x : ι) (run : Nat → RunOutcome α)
    (retries startTime endTime : Nat) (msg : String)
    (hallow : canExecuteOperation (lookupEntry st.circuitBreakers opId)
      startTime = true)
    (hfail : ∀ i, attemptOnce run i = Except.error msg) :
    executeOperation st opId (some x) run retries startTime endTime =
      (createErrorResult α opId "EXECUTION_FAILED" msg startTime endTime,
       recordCircuitBreakerFailure
         (updateExecutionTracker st opId false startTime endTime)
         opId endTime,
       retries + 1) ∧
    ((lookupEntry (executeOperation st opId (some x) run retries startTime
        endTime).2.1.executionTrackers opId).getD
        emptyTracker).failedExecutions =
      ((lookupEntry st.executionTrackers opId).getD
        emptyTracker).failedExecutions + 1 ∧
    ((lookupEntry (executeOperation st opId (some x) run retries startTime
        endTime).2.1.circuitBreakers opId).getD
        emptyOpBreaker).failureCount =
      ((lookupEntry st.circuitBreakers opId).getD
        emptyOpBreaker).failureCount + 1 ∧
    (executeOperation st opId (some x) run retries startTime
      endTime).1.status = OperationStatus.FAILED ∧
    (executeOperation st opId (some x) run retries startTime
      endTime).1.metadata =
      { startTime := startTime, endTime := endTime,
        duration := endTime - startTime } := by
  have hmain : executeOperation st opId (some x) run retries startTime
      endTime =
      (createErrorResult α opId "EXECUTION_FAILED" msg startTime endTime,
       recordCircuitBreakerFailure
         (updateExecutionTracker st opId false startTime endTime)
         opId endTime,
       retries + 1) := by
    simp [executeOperation, hallow,
      executeWithRetry_all_error run msg retries hfail]
  refine ⟨hmain, ?_, ?_, ?_, ?_⟩
  · rw [hmain]
    simp [recordCircuitBreakerFailure, updateExecutionTracker,
      lookupEntry_setEntry_self, emptyTracker]
  · rw [hmain]
    simp only [recordCircuitBreakerFailure, updateExecutionTracker,
      lookupEntry_setEntry_self, emptyOpBreaker]
    split_ifs <;> simp
  · rw [hmain]; rfl
  · rw [hmain]; rfl

/-- Witness for the amended C8 with `retries = 2` and a run that always
throws `boom`: three attempts, recorded failure, EXECUTION_FAILED result. -/
theorem C8_exhausted_failure_recorded_witness :
    executeOperation (ι := Unit) emptyExecutorState "op" (some ())
        alwaysThrowsRun 2 0 50 =
      (createErrorResult Nat "op" "EXECUTION_FAILED" "boom" 0 50,
       recordCircuitBreakerFailure
         (updateExecutionTracker emptyExecutorState "op" false 0 50)
         "op" 50,
       2 + 1) :=
  (C8_exhausted_failure_recorded emptyExecutorState "op" () alwaysThrowsRun
    2 0 50 "boom" rfl (fun _ => rfl)).1

/-! ## Claims C1, C2, C9: the connection pool -/

/-- Claim C1 refuted on the code: with `maxConnections = 1`, two acquire
calls on an empty pool both pass `canCreateNewConnection` (the capacity
check runs BEFORE `await this.connectionFactory()`), and when both factory
promises resolve the pool tracks 2 connections -
`|availableConnections| + |activeConnections| = 2 > 1 = maxConnections`. -/
theorem C1_pool_exceeds_max :
    totalConnections
      (runPoolEvents poolCfgMax1
        { pool := emptyPoolState, pendingCreates := 0 }
        overlappingAcquires).pool = 2 ∧
    poolCfgMax1.maxConnections = 1 := by
  decide

/-- Claim C2 refuted on the code: releasing a valid connection while a
waiter is queued BOTH pushes the connection onto `availableConnections`
AND resolves the longest-waiting pending request with that very same
connection (connection-pool.ts lines 150-156: the push happens first,
then `resolvePendingRequest(connection)` unconditionally). -/
theorem C2_release_double_delivery :
    (release poolOneActiveOneWaiter connSeven).1.availableConnections =
      [connSeven] ∧
    (release poolOneActiveOneWaiter connSeven).2 = some (4, connSeven) ∧
    (release poolOneActiveOneWaiter connSeven).1.pendingRequests = [] := by
  decide

theorem initializeMinConnections_eq (conns : List PoolConn) :
    ∀ av ac pr,
      initializeMinConnections ⟨av, ac, pr⟩ conns = ⟨av, ac ++ conns, pr⟩ := by
  induction conns with
  | nil => intro av ac pr; simp [initializeMinConnections]
  | cons c rest ih =>
    intro av ac pr
    have step : initializeMinConnections ⟨av, ac, pr⟩ (c :: rest) =
        initializeMinConnections ⟨av, ac ++ [c], pr⟩ rest := rfl
    rw [step, ih]
    simp

theorem cleanupAvailable_nil (minC : Nat) :
    cleanupAvailable minC [] = [] := by
  rw [cleanupAvailable]
  simp

/-- Claim C9: after construction with `minConnections = m` and a factory
that succeeds `m` times, all pre-created connections sit in the ACTIVE
list: `getStats` reports `(0, m, m)`, the available list is empty, so a
subsequent acquire finds no available connection to hand out
(`getAvailableConnection` yields `none`), and `cleanupIdleConnections`
(which only pops idle connections) leaves the pool unchanged. -/
theorem C9_min_connections_active (cfg : ConnectionPoolConfig)
    (conns : List PoolConn) (hlen : conns.length = cfg.minConnections) :
    getStats (initializeMinConnections emptyPoolState conns) =
      (0, cfg.minConnections, cfg.minConnections) ∧
    (initializeMinConnections emptyPoolState conns).activeConnections =
      conns ∧
    (initializeMinConnections emptyPoolState conns).availableConnections =
      [] ∧
    (getAvailableConnection
      (initializeMinConnections emptyPoolState conns)).1 = none ∧
    cleanupIdleConnections cfg
        (initializeMinConnections emptyPoolState conns) =
      initializeMinConnections emptyPoolState conns := by
  have he : initializeMinConnections emptyPoolState conns =
      ⟨[], conns, []⟩ := by
    have := initializeMinConnections_eq conns [] [] []
    simpa [emptyPoolState] using this
  rw [he]
  refine ⟨?_, rfl, rfl, rfl, ?_⟩
  · simp [getStats, hlen]
  · simp [cleanupIdleConnections, cleanupAvailable_nil]

/-- Witness for C9 with `minConnections = 2` and two created connections. -/
theorem C9_min_connections_active_witness :
    getStats (initializeMinConnections emptyPoolState
      [⟨1, true⟩, ⟨2, true⟩]) = (0, 2, 2) ∧
    (initializeMinConnections emptyPoolState
      [⟨1, true⟩, ⟨2, true⟩]).activeConnections = [⟨1, true⟩, ⟨2, true⟩] ∧
    (initializeMinConnections emptyPoolState
      [⟨1, true⟩, ⟨2, true⟩]).availableConnections = [] ∧
    (getAvailableConnection (initializeMinConnections emptyPoolState
      [⟨1, true⟩, ⟨2, true⟩])).1 = none ∧
    cleanupIdleConnections ⟨2, 20, 30000, 5000⟩
        (initializeMinConnections emptyPoolState
          [⟨1, true⟩, ⟨2, true⟩]) =
      initializeMinConnections emptyPoolState [⟨1, true⟩, ⟨2, true⟩] :=
  C9_min_connections_active ⟨2, 20, 30000, 5000⟩
    [⟨1, true⟩, ⟨2, true⟩] rfl

/-! ## Claim C6: the rate limiter -/

theorem filter_replicate_true (p : Int → Bool) (a : Int) (h : p a = true)
    (k : Nat) : (List.replicate k a).filter p = List.replicate k a := by
  induction k with
  | zero => rfl
  | succ n ih => simp [List.replicate_succ, List.filter_cons, h, ih]

theorem isAllowed_replicate_step (cfg : RateLimitConfig)
    (strategy : RateLimitStrategy) (now : Int) (k : Nat)
    (hW : 0 < cfg.windowMs) (hk : k < cfg.maxRequests) :
    isAllowed cfg strategy ⟨List.replicate k now, none⟩ now =
      (true, ⟨List.replicate (k + 1) now, none⟩) := by
  have hfilter : (List.replicate k now).filter
      (fun t => decide (now - cfg.windowMs < t)) = List.replicate k now :=
    filter_replicate_true (fun t => decide (now - cfg.windowMs < t)) now
      (by simp; omega) k
  simp [isAllowed, isBlockedNow, pruneOldTimestamps, hfilter,
    List.length_replicate, Nat.not_le.mpr hk, List.replicate_succ']

theorem isAllowed_replicate_full (cfg : RateLimitConfig)
    (strategy : RateLimitStrategy) (now : Int) (hW : 0 < cfg.windowMs) :
    (isAllowed cfg strategy
      ⟨List.replicate cfg.maxRequests now, none⟩ now).1 = false := by
  have hfilter : (List.replicate cfg.maxRequests now).filter
      (fun t => decide (now - cfg.windowMs < t)) =
      List.replicate cfg.maxRequests now :=
    filter_replicate_true (fun t => decide (now - cfg.windowMs < t)) now
      (by simp; omega) cfg.maxRequests
  cases strategy <;>
    simp [isAllowed, isBlockedNow, pruneOldTimestamps, hfilter,
      List.length_replicate]

theorem repeatCalls_replicate (cfg : RateLimitConfig)
    (strategy : RateLimitStrategy) (now : Int) (hW : 0 < cfg.windowMs) :
    ∀ j k, k + j ≤ cfg.maxRequests →
      repeatCalls cfg strategy ⟨List.replicate k now, none⟩ now j =
        (List.replicate j true, ⟨List.replicate (k + j) now, none⟩) := by
  intro j
  induction j with
  | zero => intro k h; simp [repeatCalls]
  | succ m ih =>
    intro k h
    simp only [repeatCalls]
    rw [isAllowed_replicate_step cfg strategy now k hW (by omega)]
    simp only
    rw [ih (k + 1) (by omega)]
    rw [show k + 1 + m = k + (m + 1) from by omega]
    simp [List.replicate_succ]

theorem repeatCalls_append (cfg : RateLimitConfig)
    (strategy : RateLimitStrategy) (now : Int) :
    ∀ m e n,
      repeatCalls cfg strategy e now (m + n) =
        ((repeatCalls cfg strategy e now m).1 ++
           (repeatCalls cfg strategy
             (repeatCalls cfg strategy e now m).2 now n).1,
         (repeatCalls cfg strategy
           (repeatCalls cfg strategy e now m).2 now n).2) := by
  intro m
  induction m with
  | zero => intro e n; simp [repeatCalls]
  | succ j ih =>
    intro e n
    rw [show j + 1 + n = (j + n) + 1 from by omega]
    simp only [repeatCalls]
    rw [ih (isAllowed cfg strategy e now).2 n]
    simp

theorem repeatCalls_cap (cfg : RateLimitConfig)
    (strategy : RateLimitStrategy) (now : Int) (hW : 0 < cfg.windowMs) :
    (repeatCalls cfg strategy freshRateLimitEntry now
      (cfg.maxRequests + 1)).1 =
      List.replicate cfg.maxRequests true ++ [false] := by
  have h0 : freshRateLimitEntry =
      (⟨List.replicate 0 now, none⟩ : RateLimitEntry) := rfl
  rw [h0, repeatCalls_append cfg strategy now cfg.maxRequests _ 1,
    repeatCalls_replicate cfg strategy now hW cfg.maxRequests 0 (by omega)]
  have hfull := isAllowed_replicate_full cfg strategy now hW
  rw [show (1 : Nat) = 0 + 1 from rfl]
  simp only [repeatCalls]
  simp [Nat.zero_add, hfull]

/-- Claim C6: `isAllowed` returns true exactly when the identifier is not
currently blocked and fewer than `maxRequests` recorded timestamps lie
within the last `windowMs` milliseconds (strictly newer than
`now - windowMs`); consequently, for a fresh identifier, of
`maxRequests + 1` calls inside one window the first `maxRequests` are
allowed and the next one is denied (whatever the strategy). -/
theorem C6_isAllowed_window_cap (cfg : RateLimitConfig)
    (strategy : RateLimitStrategy) (e : RateLimitEntry) (now : Int)
    (hW : 0 < cfg.windowMs) :
    ((isAllowed cfg strategy e now).1 = true ↔
      (isBlockedNow e now = false ∧
        (e.timestamps.filter
          (fun t => decide (now - cfg.windowMs < t))).length <
          cfg.maxRequests)) ∧
    (repeatCalls cfg strategy freshRateLimitEntry now
      (cfg.maxRequests + 1)).1 =
      List.replicate cfg.maxRequests true ++ [false] := by
  refine ⟨?_, repeatCalls_cap cfg strategy now hW⟩
  by_cases hb : isBlockedNow e now
  · simp [isAllowed, hb]
  · by_cases hl : cfg.maxRequests ≤
        (e.timestamps.filter
          (fun t => decide (now - cfg.windowMs < t))).length
    · cases strategy <;>
        simp [isAllowed, hb, pruneOldTimestamps, hl]
    · simp [isAllowed, hb, pruneOldTimestamps, hl]
      omega

/-- Witness for C6 with `maxRequests = 2`, `windowMs = 1000`, strategy
BLOCK, a fresh identifier and all calls at time 0. -/
theorem C6_isAllowed_window_cap_witness :
    ((isAllowed rlCfgTwo RateLimitStrategy.BLOCK freshRateLimitEntry
        0).1 = true ↔
      (isBlockedNow freshRateLimitEntry 0 = false ∧
        (freshRateLimitEntry.timestamps.filter
          (fun t => decide ((0 : Int) - rlCfgTwo.windowMs < t))).length <
          rlCfgTwo.maxRequests)) ∧
    (repeatCalls rlCfgTwo RateLimitStrategy.BLOCK freshRateLimitEntry 0
      (rlCfgTwo.maxRequests + 1)).1 =
      List.replicate rlCfgTwo.maxRequests true ++ [false] :=
  C6_isAllowed_window_cap rlCfgTwo RateLimitStrategy.BLOCK
    freshRateLimitEntry 0 (by decide)

/-! ## Claims C7 and C10: the cache -/

/-- Counterexample to C7: a memoized function returning JS `undefined`.
The first call invokes it and caches the `undefined` result (the entry IS
stored), but `memoize` guards the cache read with `!== undefined`, so the
second identical call misses and invokes the underlying function AGAIN -
two invocations in total, not one. -/
theorem C7_memoize_undefined_reinvoked :
    (memoizedCall (emptyCache Unit) fnUndefined unitKey () 0).2.2 = 1 ∧
    (lookupEntry (memoizedCall (emptyCache Unit) fnUndefined unitKey ()
      0).2.1.cache "[null]").isSome = true ∧
    (memoizedCall
      (memoizedCall (emptyCache Unit) fnUndefined unitKey () 0).2.1
      fnUndefined unitKey () 0).2.2 = 1 := by
  decide

/-- Claim C7 as amended: for a function whose result at `x` is DEFINED
(any value other than JS `undefined`, falsy ones included), two identical
memoized calls within the entry's TTL invoke the underlying function
exactly once - the first call invokes and caches, the second serves the
cached value with zero invocations; a function returning `undefined` has
its result cached but never served, so it is invoked again on every call. -/
theorem C7_memoize_defined_once {ι α : Type} (fn : ι → Option α)
    (keyOf : ι → String) (x : ι) (v : α) (now now2 : Int)
    (hfn : fn x = some v) (h2 : now2 < now + 300000) :
    (memoizedCall (emptyCache α) fn keyOf x now).1 = some v ∧
    (memoizedCall (emptyCache α) fn keyOf x now).2.2 = 1 ∧
    (memoizedCall (memoizedCall (emptyCache α) fn keyOf x now).2.1
      fn keyOf x now2).1 = some v ∧
    (memoizedCall (memoizedCall (emptyCache α) fn keyOf x now).2.1
      fn keyOf x now2).2.2 = 0 := by
  have hvalid : decide (now2 < now + 300000) = true := by simp [h2]
  refine ⟨?_, ?_, ?_, ?_⟩ <;>
    simp [memoizedCall, CacheManager.get, CacheManager.set, emptyCache,
      defaultCacheManagerConfig, lookupEntry, setEntry, enforceMaxEntries,
      enforceMaxEntriesGo, isValidEntry, hfn, hvalid]

/-- Witness for the amended C7: `fun _ => some 42` memoized, called twice. -/
theorem C7_memoize_defined_once_witness :
    (memoizedCall (emptyCache Nat) (fun _ => some 42) unitKey ()
      0).1 = some 42 ∧
    (memoizedCall (emptyCache Nat) (fun _ => some 42) unitKey ()
      0).2.2 = 1 ∧
    (memoizedCall (memoizedCall (emptyCache Nat) (fun _ => some 42)
      unitKey () 0).2.1 (fun _ => some 42) unitKey () 100).1 = some 42 ∧
    (memoizedCall (memoizedCall (emptyCache Nat) (fun _ => some 42)
      unitKey () 0).2.1 (fun _ => some 42) unitKey () 100).2.2 = 0 :=
  C7_memoize_defined_once (fun _ => some 42) unitKey () 42 0 100 rfl
    (by decide)

/-- Counterexample to C10: `set` with `ttl = -100` at `now = 100` stores
`expiresAt = 0`, and `isValidEntry` reads `!entry.expiresAt || ...`, so a
zero (falsy) `expiresAt` makes the entry valid at ANY later time, and
`cleanup` (same truthiness test) never removes it: an entry with a
defined `expiresAt` that never expires, refuting `no entry can be made
non-expiring`. -/
theorem C10_nonexpiring_entry :
    lookupEntry (CacheManager.set (emptyCache Unit) "k" (some ())
      (some (-100)) 100).cache "k" =
      some { value := some (), createdAt := 100, expiresAt := some 0 } ∧
    isValidEntry ({ value := some (), createdAt := 100,
                    expiresAt := some 0 } : CacheEntry Unit)
      32503680000000 = true ∧
    (CacheManager.cleanup (CacheManager.set (emptyCache Unit) "k"
        (some ()) (some (-100)) 100) 32503680000000).cache =
      (CacheManager.set (emptyCache Unit) "k" (some ()) (some (-100))
        100).cache := by
  decide

/-- Claim C10 as amended: every entry stored by `set` has a DEFINED
`expiresAt` following the claimed formula (default TTL when `ttl` is
omitted or 0, else `now + ttl`, so `ttl = 0` never means immediate
expiry); an entry whose stored `expiresAt` is a nonzero `w` is valid
exactly while `now < w`, but an entry with `expiresAt = 0` (reachable
via `ttl = -now`) is treated as falsy and never expires. -/
theorem C10_set_expiry_formula {α : Type} (c : CacheManager α)
    (key : String) (value : Option α) (ttl : Option Int) (now : Int) :
    lookupEntry (CacheManager.set c key value ttl now).cache key =
      some { value := value, createdAt := now,
             expiresAt := some (claimedExpiresAt c.config ttl now) } ∧
    (∀ w t : Int, w ≠ 0 →
      (isValidEntry { value := value, createdAt := now,
                      expiresAt := some w } t = true ↔ t < w)) ∧
    (∀ t : Int, isValidEntry
      { value := value, createdAt := now,
        expiresAt := some (0 : Int) } t = true) := by
  refine ⟨?_, ?_, ?_⟩
  · cases ttl with
    | none =>
      simp [CacheManager.set, claimedExpiresAt, lookupEntry_setEntry_self]
    | some t =>
      by_cases h : t = 0 <;>
        simp [CacheManager.set, claimedExpiresAt, h,
          lookupEntry_setEntry_self]
  · intro w t hw
    simp [isValidEntry, hw]
  · intro t
    simp [isValidEntry]

/-- Witness for the amended C10: `ttl = 0` at `now = 7` stores the default
expiry, and a zero `expiresAt` is valid at time 999. -/
theorem C10_set_expiry_formula_witness :
    lookupEntry (CacheManager.set (emptyCache Nat) "k" (some 5) (some 0)
        7).cache "k" =
      some { value := some 5, createdAt := 7,
             expiresAt := some (claimedExpiresAt
               (emptyCache Nat).config (some 0) 7) } ∧
    isValidEntry ({ value := some (5 : Nat), createdAt := 7,
                    expiresAt := some (0 : Int) } : CacheEntry Nat)
      999 = true :=
  ⟨(C10_set_expiry_formula (emptyCache Nat) "k" (some 5) (some 0) 7).1,
   (C10_set_expiry_formula (emptyCache Nat) "k" (some 5) (some 0)
     7).2.2 999⟩
